import Mathlib

/-!
Verification of the OAuth token lifecycle core of GHL-Utils:
the credential store (`src/database/credentialsManagement.py`) and the
token lifecycle manager (`src/llib/tokenManagement.py`).

Modelling conventions (shallow embedding of the Python source):
* The SQLite `users` table is a function `Store : String → Option CredentialRecord`;
  `INSERT OR REPLACE` becomes `upsert`, which replaces the whole row (so
  `company_id`, not in the column list of the insert, becomes `none`).
* `datetime.now()` is an explicit `now : Int` parameter (epoch seconds);
  `expires_at` is `Option Int` (`none` models a NULL/empty column, as tested by
  Python's truthiness check `if credentials.expires_at:`).
* Python exceptions become an explicit `Err` value carrying the exception class
  (`ValueError` / `RuntimeError`) and the exact message string built in the source.
* The single `requests.post` to the OAuth endpoint is modelled by an `HttpResult`
  input (a raised `RequestException` or a parsed JSON body whose fields may be
  absent); the refresh tokens actually sent over the wire are collected in a
  `posts` list so that "zero network calls" is a statement about the model.
* `expires_in` is an `Int` (the Python `isinstance(expires_in, int)` branch for
  non-integers is outside the model); Python truthiness of an int is `≠ 0`.
-/

/-- One row of the `users` table (`init_db` in `src/database/utils.py`). -/
structure CredentialRecord where
  location_id : String
  company_id : Option String
  access_token : String
  refresh_token : String
  expires_at : Option Int
deriving Repr, DecidableEq

/-- The persisted state: at most one record per `location_id`. -/
def Store := String → Option CredentialRecord

/-- The store as created by `init_db`: an empty `users` table. -/
def emptyStore : Store := fun _ => none

/-- `INSERT OR REPLACE INTO users ... WHERE location_id = ?`: full row replace
keyed on `location_id`. -/
def upsert (s : Store) (loc : String) (r : CredentialRecord) : Store :=
  fun l => if l = loc then some r else s l

/-- A Python exception as raised by the credential/token modules: the class
(`ValueError` for caller-input problems, `RuntimeError` for runtime failures)
together with the message string the source builds. -/
inductive Err where
  | valueError (msg : String)
  | runtimeError (msg : String)
deriving Repr, DecidableEq

/-- `store_credentials(location_id, access_token, refresh_token, expires_in)`
from `src/database/credentialsManagement.py`: input validation, then
`expires_at = now + expires_in` and an `INSERT OR REPLACE`.
Python's `not expires_in or not isinstance(expires_in, int)` is, for an `Int`
argument, exactly `expires_in = 0`. -/
def store_credentials (s : Store) (now : Int) (location_id access_token refresh_token : String)
    (expires_in : Int) : Except Err Store :=
  if location_id = "" then
    .error (.valueError "Missing required parameter: location_id")
  else if access_token = "" then
    .error (.valueError "Missing required parameter: access_token")
  else if refresh_token = "" then
    .error (.valueError "Missing required parameter: refresh_token")
  else if expires_in = 0 then
    .error (.valueError "Invalid parameter: expires_in must be a valid integer")
  else
    .ok (upsert s location_id
      { location_id := location_id
        company_id := none
        access_token := access_token
        refresh_token := refresh_token
        expires_at := some (now + expires_in) })

/-- `get_credentials(location_id)`: validates the argument, then returns the
row (or `None`, reported as `.ok none`, matching the source's `return None`). -/
def get_credentials (s : Store) (location_id : String) :
    Except Err (Option CredentialRecord) :=
  if location_id = "" then
    .error (.valueError "Missing required parameter: location_id")
  else
    .ok (s location_id)

/-- Message carried by an `Err`. -/
def Err.msg : Err → String
  | .valueError m => m
  | .runtimeError m => m

/-- The parsed JSON body of the token endpoint's response; `token_data.get(k)`
yields `none` when the key is absent. -/
structure TokenResponse where
  access_token : Option String
  refresh_token : Option String
  expires_in : Option Int
deriving Repr, DecidableEq

/-- Outcome of the one `requests.post` in `refresh_access_token`: either a
`RequestException` (network failure or non-2xx via `raise_for_status`) with its
message, or a parsed body. -/
inductive HttpResult where
  | failure (msg : String)
  | success (resp : TokenResponse)
deriving Repr, DecidableEq

/-- Python truthiness of an optional string: present and non-empty. -/
def truthyS : Option String → Bool
  | none => false
  | some s => s ≠ ""

/-- Python truthiness of an optional int: present and non-zero. -/
def truthyI : Option Int → Bool
  | none => false
  | some n => n ≠ 0

/-- Result of `refresh_access_token`: the Python return value or raised
exception, the store after the call, and the list of refresh tokens sent to
the token endpoint (one entry per `requests.post` performed). -/
structure RefreshOutcome where
  result : Except Err Bool
  store : Store
  posts : List String

/-- `refresh_access_token(location_id)` from `src/llib/tokenManagement.py`.
The `raise ValueError("No refresh token found ...")` sits inside a
`try ... except Exception` block, so it is caught and re-raised as
`RuntimeError("Failed to retrieve credentials: ...")`.  In the network block a
`RequestException` becomes `RuntimeError("Failed to refresh token: ...")` and
any other exception (including the incomplete-response `RuntimeError` and any
error from `store_credentials`) becomes
`RuntimeError("Unexpected error during token refresh: ...")`. -/
def refresh_access_token (s : Store) (now : Int) (net : HttpResult)
    (location_id : String) : RefreshOutcome :=
  if location_id = "" then
    { result := .error (.valueError "Missing required parameter: location_id")
      store := s, posts := [] }
  else
    match s location_id with
    | none =>
      { result := .error (.runtimeError
          ("Failed to retrieve credentials: No refresh token found for location_id: "
            ++ location_id))
        store := s, posts := [] }
    | some cred =>
      if cred.refresh_token = "" then
        { result := .error (.runtimeError
            ("Failed to retrieve credentials: No refresh token found for location_id: "
              ++ location_id))
          store := s, posts := [] }
      else
        match net with
        | .failure msg =>
          { result := .error (.runtimeError ("Failed to refresh token: " ++ msg))
            store := s, posts := [cred.refresh_token] }
        | .success resp =>
          if truthyS resp.access_token && truthyS resp.refresh_token
              && truthyI resp.expires_in then
            match store_credentials s now location_id (resp.access_token.getD "")
                (resp.refresh_token.getD "") (resp.expires_in.getD 0) with
            | .ok s2 =>
              { result := .ok true, store := s2, posts := [cred.refresh_token] }
            | .error e =>
              { result := .error (.runtimeError
                  ("Unexpected error during token refresh: " ++ e.msg))
                store := s, posts := [cred.refresh_token] }
          else
            { result := .error (.runtimeError
                "Unexpected error during token refresh: Incomplete token response from refresh request")
              store := s, posts := [cred.refresh_token] }

/-- How `ensure_valid_token`'s `except ValueError: raise` /
`except Exception as e: raise RuntimeError(f"Error ensuring valid token: {e}")`
pair transforms an exception escaping the `try` block. -/
def wrapEnsure : Err → Err
  | .valueError m => .valueError m
  | .runtimeError m => .runtimeError ("Error ensuring valid token: " ++ m)

/-- Result of `ensure_valid_token`: returned token or raised exception, the
store after the call, the refresh tokens posted to the network, and how many
times `refresh_access_token` was invoked. -/
structure EnsureOutcome where
  result : Except Err String
  store : Store
  posts : List String
  refreshCalls : Nat

/-- `ensure_valid_token(location_id)` from `src/llib/tokenManagement.py`:
load the record (absent → `ValueError`, re-raised unchanged); if
`expires_at` is truthy and `now >= expires_at`, call `refresh_access_token`,
reload, and return the reloaded `access_token` (reload empty →
`RuntimeError`, wrapped by the outer handler); if `expires_at` is truthy and
`now < expires_at`, or `expires_at` is falsy (NULL/empty), return the stored
`access_token` with no refresh. -/
def ensure_valid_token (s : Store) (now : Int) (net : HttpResult)
    (location_id : String) : EnsureOutcome :=
  if location_id = "" then
    { result := .error (.valueError "Missing required parameter: location_id")
      store := s, posts := [], refreshCalls := 0 }
  else
    match s location_id with
    | none =>
      { result := .error (.valueError
          ("No credentials found for location_id: " ++ location_id))
        store := s, posts := [], refreshCalls := 0 }
    | some cred =>
      match cred.expires_at with
      | none =>
        { result := .ok cred.access_token, store := s, posts := [], refreshCalls := 0 }
      | some exp =>
        if exp ≤ now then
          let r := refresh_access_token s now net location_id
          match r.result with
          | .ok _ =>
            match r.store location_id with
            | some cred2 =>
              { result := .ok cred2.access_token, store := r.store
                posts := r.posts, refreshCalls := 1 }
            | none =>
              { result := .error (.runtimeError
                  "Error ensuring valid token: Failed to retrieve updated credentials after refresh")
                store := r.store, posts := r.posts, refreshCalls := 1 }
          | .error e =>
            { result := .error (wrapEnsure e), store := r.store
              posts := r.posts, refreshCalls := 1 }
        else
          { result := .ok cred.access_token, store := s, posts := [], refreshCalls := 0 }

/-- Store states reachable by the repository's only write path: an empty table
(`init_db`) followed by successful `store_credentials` calls (both the OAuth
callback in `src/server.py` and `refresh_access_token` write through it). -/
inductive Reachable : Store → Prop where
  | init : Reachable emptyStore
  | step {s s2 : Store} {now : Int} {L A R : String} {E : Int} :
      Reachable s → store_credentials s now L A R E = .ok s2 → Reachable s2

/-! ## Helper lemmas -/

lemma store_credentials_ok {s : Store} {now : Int} {L A R : String} {E : Int}
    (hL : L ≠ "") (hA : A ≠ "") (hR : R ≠ "") (hE : E ≠ 0) :
    store_credentials s now L A R E =
      .ok (upsert s L ⟨L, none, A, R, some (now + E)⟩) := by
  unfold store_credentials
  rw [if_neg hL, if_neg hA, if_neg hR, if_neg hE]

lemma store_credentials_ok_elim {s s2 : Store} {now : Int} {L A R : String} {E : Int}
    (h : store_credentials s now L A R E = .ok s2) :
    s2 = upsert s L ⟨L, none, A, R, some (now + E)⟩ := by
  unfold store_credentials at h
  split_ifs at h
  all_goals simp_all

lemma upsert_self {s : Store} {loc : String} {r : CredentialRecord} :
    upsert (upsert s loc r) loc r = upsert s loc r := by
  funext l
  unfold upsert
  by_cases h : l = loc <;> simp [h]

lemma refresh_success {s : Store} {now : Int} {loc : String} {cred : CredentialRecord}
    {resp : TokenResponse} {a r2 : String} {e2 : Int}
    (hloc : loc ≠ "") (hs : s loc = some cred) (hrt : cred.refresh_token ≠ "")
    (ha : resp.access_token = some a) (ha2 : a ≠ "")
    (hr : resp.refresh_token = some r2) (hr2 : r2 ≠ "")
    (he : resp.expires_in = some e2) (he2 : e2 ≠ 0) :
    refresh_access_token s now (.success resp) loc =
      { result := .ok true
        store := upsert s loc ⟨loc, none, a, r2, some (now + e2)⟩
        posts := [cred.refresh_token] } := by
  unfold refresh_access_token
  rw [if_neg hloc, hs]
  simp only [ha, hr, he, truthyS, truthyI, Option.getD_some]
  rw [if_neg hrt]
  simp only [ha2, hr2, he2, decide_not, Bool.and_true, Bool.not_eq_true,
    decide_eq_false_iff_not, not_not, if_true]
  rw [store_credentials_ok hloc ha2 hr2 he2]
  simp

/-! ## Concrete fixtures used by witnesses and counterexamples -/

/-- The stored record of the spec's scenario: `("loc1", "tokA", "refA")`
expiring at instant 50. -/
def cred1 : CredentialRecord :=
  { location_id := "loc1", company_id := none, access_token := "tokA"
    refresh_token := "refA", expires_at := some 50 }

/-- A store holding exactly `cred1`. -/
def storeOne : Store := upsert emptyStore "loc1" cred1

/-- The mocked successful refresh response of the spec's scenario. -/
def resp1 : TokenResponse :=
  { access_token := some "tokB", refresh_token := some "refB", expires_in := some 7200 }

/-- A record whose `expires_at` column is NULL. -/
def credNull : CredentialRecord :=
  { location_id := "locN", company_id := none, access_token := "tokN"
    refresh_token := "refN", expires_at := none }

/-- A store holding exactly `credNull`. -/
def storeNull : Store := upsert emptyStore "locN" credNull

/-! ## Claims -/

/-- C3: for every stored record whose `expires_at` is strictly after the
current time, `ensure_valid_token` returns that record's `access_token`
unchanged, performs zero network calls, never invokes the refresh exchange,
and leaves the store unmodified. -/
theorem c3_valid_token_no_network (s : Store) (now : Int) (net : HttpResult)
    (loc : String) (cred : CredentialRecord) (exp : Int)
    (hloc : loc ≠ "") (hs : s loc = some cred) (hexp : cred.expires_at = some exp)
    (hlt : now < exp) :
    (ensure_valid_token s now net loc).result = .ok cred.access_token ∧
    (ensure_valid_token s now net loc).store = s ∧
    (ensure_valid_token s now net loc).posts = [] ∧
    (ensure_valid_token s now net loc).refreshCalls = 0 := by
  unfold ensure_valid_token
  rw [if_neg hloc]
  simp only [hs, hexp, if_neg (not_le.mpr hlt)]
  simp

/-- Witness for C3 at the spec's first scenario: stored token expiring at 50,
checked at time 10. -/
theorem c3_valid_token_no_network_witness :
    (ensure_valid_token storeOne 10 (.failure "net down") "loc1").result = .ok "tokA" ∧
    (ensure_valid_token storeOne 10 (.failure "net down") "loc1").store = storeOne ∧
    (ensure_valid_token storeOne 10 (.failure "net down") "loc1").posts = [] ∧
    (ensure_valid_token storeOne 10 (.failure "net down") "loc1").refreshCalls = 0 :=
  c3_valid_token_no_network storeOne 10 (.failure "net down") "loc1" cred1 50
    (by decide) rfl rfl (by decide)

/-- C9: a stored record whose `expires_at` is NULL/empty skips the expiry
comparison entirely: `ensure_valid_token` returns the stored `access_token`
with no refresh attempt and no network call, for every current time. -/
theorem c9_null_expiry_treated_as_valid (s : Store) (now : Int) (net : HttpResult)
    (loc : String) (cred : CredentialRecord)
    (hloc : loc ≠ "") (hs : s loc = some cred) (hexp : cred.expires_at = none) :
    (ensure_valid_token s now net loc).result = .ok cred.access_token ∧
    (ensure_valid_token s now net loc).store = s ∧
    (ensure_valid_token s now net loc).posts = [] ∧
    (ensure_valid_token s now net loc).refreshCalls = 0 := by
  unfold ensure_valid_token
  rw [if_neg hloc]
  simp only [hs, hexp]
  simp

/-- Witness for C9: a NULL-expiry record read arbitrarily far in the future
(time 999999) still yields the stored token with no refresh. -/
theorem c9_null_expiry_treated_as_valid_witness :
    (ensure_valid_token storeNull 999999 (.failure "net down") "locN").result = .ok "tokN" ∧
    (ensure_valid_token storeNull 999999 (.failure "net down") "locN").store = storeNull ∧
    (ensure_valid_token storeNull 999999 (.failure "net down") "locN").posts = [] ∧
    (ensure_valid_token storeNull 999999 (.failure "net down") "locN").refreshCalls = 0 :=
  c9_null_expiry_treated_as_valid storeNull 999999 (.failure "net down") "locN" credNull
    (by decide) rfl rfl

/-- C1: for every stored record expired at call time (`expires_at ≤ now`),
`ensure_valid_token` invokes `refresh_access_token` exactly once; and when
that refresh succeeds (well-formed response, non-empty stored refresh token),
it returns the access token just persisted by the refresh — the record
reloaded from the store carries exactly that token — not the old one, and
exactly one network exchange was made, carrying the stored refresh token. -/
theorem c1_expired_triggers_one_refresh (s : Store) (now : Int) (net : HttpResult)
    (loc : String) (cred : CredentialRecord) (exp : Int) (resp : TokenResponse)
    (a r2 : String) (e2 : Int)
    (hloc : loc ≠ "") (hs : s loc = some cred) (hexp : cred.expires_at = some exp)
    (hle : exp ≤ now) :
    (ensure_valid_token s now net loc).refreshCalls = 1 ∧
    (net = .success resp → resp.access_token = some a → a ≠ "" →
      resp.refresh_token = some r2 → r2 ≠ "" → resp.expires_in = some e2 → e2 ≠ 0 →
      cred.refresh_token ≠ "" →
      (ensure_valid_token s now net loc).result = .ok a ∧
      (ensure_valid_token s now net loc).store loc =
        some ⟨loc, none, a, r2, some (now + e2)⟩ ∧
      (ensure_valid_token s now net loc).posts = [cred.refresh_token]) := by
  constructor
  · unfold ensure_valid_token
    rw [if_neg hloc]
    simp only [hs, hexp, if_pos hle]
    cases hres : (refresh_access_token s now net loc).result with
    | ok b =>
      cases hsl : (refresh_access_token s now net loc).store loc with
      | some c2 => simp [hres, hsl]
      | none => simp [hres, hsl]
    | error e => simp [hres]
  · intro hnet ha ha2 hr hr2 he he2 hrt
    subst hnet
    have href := @refresh_success s now loc cred resp a r2 e2 hloc hs hrt ha ha2 hr hr2 he he2
    unfold ensure_valid_token
    rw [if_neg hloc]
    simp only [hs, hexp, if_pos hle, href]
    simp [upsert]

/-- Witness for C1 at the spec's scenario: expired record `cred1` at time 100,
mocked response `resp1` — the call returns `"tokB"`, the store now shows the
rotated pair, one refresh attempt was made with `"refA"`. -/
theorem c1_expired_triggers_one_refresh_witness :
    (ensure_valid_token storeOne 100 (.success resp1) "loc1").refreshCalls = 1 ∧
    (ensure_valid_token storeOne 100 (.success resp1) "loc1").result = .ok "tokB" ∧
    (ensure_valid_token storeOne 100 (.success resp1) "loc1").store "loc1" =
      some ⟨"loc1", none, "tokB", "refB", some (100 + 7200)⟩ ∧
    (ensure_valid_token storeOne 100 (.success resp1) "loc1").posts = ["refA"] := by
  have h := c1_expired_triggers_one_refresh storeOne 100 (.success resp1) "loc1" cred1 50
    resp1 "tokB" "refB" 7200 (by decide) rfl rfl (by decide)
  have h2 := h.2 rfl rfl (by decide) rfl (by decide) rfl (by decide) (by decide)
  exact ⟨h.1, h2.1, h2.2.1, h2.2.2⟩

deriving instance DecidableEq for Except

/-- C2 counterexample: at a concrete expired record and a concrete network
failure, the refresh error is `RuntimeError("Failed to refresh token: connection
refused")`, but `ensure_valid_token` surfaces
`RuntimeError("Error ensuring valid token: Failed to refresh token: connection
refused")` — the same exception class with a wrapped message, not the refresh
error unchanged. -/
theorem c2_error_not_propagated_unchanged :
    (refresh_access_token storeOne 100 (.failure "connection refused") "loc1").result =
      .error (.runtimeError "Failed to refresh token: connection refused") ∧
    (ensure_valid_token storeOne 100 (.failure "connection refused") "loc1").result =
      .error (.runtimeError
        "Error ensuring valid token: Failed to refresh token: connection refused") ∧
    (ensure_valid_token storeOne 100 (.failure "connection refused") "loc1").result ≠
      .error (.runtimeError "Failed to refresh token: connection refused") :=
  ⟨rfl, rfl, by decide⟩

/-- C2 (amended): for every stored record expired at call time, if the refresh
attempt fails with error `e`, `ensure_valid_token` fails with `e` transformed
by the outer exception handler (`ValueError` re-raised as is, `RuntimeError`
re-raised with its message prefixed by "Error ensuring valid token: ") and
never returns the stale `access_token` as a success result. -/
theorem c2_refresh_failure_never_stale_token (s : Store) (now : Int) (net : HttpResult)
    (loc : String) (cred : CredentialRecord) (exp : Int) (e : Err)
    (hloc : loc ≠ "") (hs : s loc = some cred) (hexp : cred.expires_at = some exp)
    (hle : exp ≤ now)
    (hfail : (refresh_access_token s now net loc).result = .error e) :
    (ensure_valid_token s now net loc).result = .error (wrapEnsure e) ∧
    ∀ t : String, (ensure_valid_token s now net loc).result ≠ .ok t := by
  have h1 : (ensure_valid_token s now net loc).result = .error (wrapEnsure e) := by
    unfold ensure_valid_token
    rw [if_neg hloc]
    simp only [hs, hexp, if_pos hle, hfail]
  refine ⟨h1, fun t => ?_⟩
  rw [h1]
  simp

/-- Witness for C2 at the concrete failing refresh of the counterexample. -/
theorem c2_refresh_failure_never_stale_token_witness :
    (ensure_valid_token storeOne 100 (.failure "connection refused") "loc1").result =
      .error (wrapEnsure (.runtimeError "Failed to refresh token: connection refused")) ∧
    ∀ t : String,
      (ensure_valid_token storeOne 100 (.failure "connection refused") "loc1").result ≠
        .ok t :=
  c2_refresh_failure_never_stale_token storeOne 100 (.failure "connection refused") "loc1"
    cred1 50 (.runtimeError "Failed to refresh token: connection refused")
    (by decide) rfl rfl (by decide) rfl

lemma store_credentials_ok_inv {s s2 : Store} {now : Int} {L A R : String} {E : Int}
    (h : store_credentials s now L A R E = .ok s2) :
    L ≠ "" ∧ A ≠ "" ∧ R ≠ "" ∧ E ≠ 0 ∧
      s2 = upsert s L ⟨L, none, A, R, some (now + E)⟩ := by
  unfold store_credentials at h
  split_ifs at h with h1 h2 h3 h4
  simp at h
  exact ⟨h1, h2, h3, h4, h.symm⟩

/-- C4: a successful `store_credentials(L, A, R, E)` writes exactly the record
`(L, A, R, expires_at = now + E)` (with `company_id` NULL), and a following
`get(L)` returns it verbatim. -/
theorem c4_store_get_round_trip (s : Store) (now : Int) (L A R : String) (E : Int)
    (hL : L ≠ "") (hA : A ≠ "") (hR : R ≠ "") (hE : 0 < E) :
    store_credentials s now L A R E =
      .ok (upsert s L ⟨L, none, A, R, some (now + E)⟩) ∧
    get_credentials (upsert s L ⟨L, none, A, R, some (now + E)⟩) L =
      .ok (some ⟨L, none, A, R, some (now + E)⟩) := by
  refine ⟨store_credentials_ok hL hA hR (ne_of_gt hE), ?_⟩
  unfold get_credentials upsert
  rw [if_neg hL, if_pos rfl]

/-- Witness for C4: store `("L", "A", "R", 5)` at time 0 and read it back. -/
theorem c4_store_get_round_trip_witness :
    store_credentials emptyStore 0 "L" "A" "R" 5 =
      .ok (upsert emptyStore "L" ⟨"L", none, "A", "R", some (0 + 5)⟩) ∧
    get_credentials (upsert emptyStore "L" ⟨"L", none, "A", "R", some (0 + 5)⟩) "L" =
      .ok (some ⟨"L", none, "A", "R", some (0 + 5)⟩) :=
  c4_store_get_round_trip emptyStore 0 "L" "A" "R" 5
    (by decide) (by decide) (by decide) (by decide)

/-- C5 counterexample: `store_credentials` with the negative TTL `-1` does not
fail — validation only rejects a zero (Python-falsy) or non-integer
`expires_in` — and the record is stored with an already-past `expires_at`. -/
theorem c5_negative_ttl_accepted :
    store_credentials emptyStore 0 "L" "A" "R" (-1) =
      .ok (upsert emptyStore "L" ⟨"L", none, "A", "R", some (0 + (-1))⟩) ∧
    get_credentials (upsert emptyStore "L" ⟨"L", none, "A", "R", some (0 + (-1))⟩) "L" =
      .ok (some ⟨"L", none, "A", "R", some (0 + (-1))⟩) :=
  ⟨rfl, rfl⟩

/-- C5 (amended): with the other three fields present, `store_credentials`
fails with `ValueError` (the `ValidationError` kind), leaving the store
unchanged, exactly when `expires_in` is zero (Python-falsy) or not an
integer; negative integer TTLs are accepted. -/
theorem c5_zero_ttl_validation_error (s : Store) (now : Int) (L A R : String)
    (hL : L ≠ "") (hA : A ≠ "") (hR : R ≠ "") :
    store_credentials s now L A R 0 =
      .error (.valueError "Invalid parameter: expires_in must be a valid integer") := by
  unfold store_credentials
  rw [if_neg hL, if_neg hA, if_neg hR, if_pos rfl]

/-- Witness for C5: the spec's scenario `expires_in = 0` at concrete inputs. -/
theorem c5_zero_ttl_validation_error_witness :
    store_credentials emptyStore 0 "L" "A" "R" 0 =
      .error (.valueError "Invalid parameter: expires_in must be a valid integer") :=
  c5_zero_ttl_validation_error emptyStore 0 "L" "A" "R"
    (by decide) (by decide) (by decide)

/-- C8: running `store_credentials` twice with the same arguments (and the
same write-time clock) yields the same store as running it once: the second
write fully replaces the record with an identical one, and a failing call
fails both times leaving the store alone. -/
theorem c8_store_credentials_idempotent (s : Store) (now : Int) (L A R : String) (E : Int) :
    (store_credentials s now L A R E).bind (fun s1 => store_credentials s1 now L A R E) =
      store_credentials s now L A R E := by
  cases h : store_credentials s now L A R E with
  | error e => rfl
  | ok s1 =>
    obtain ⟨hL, hA, hR, hE, hs1⟩ := store_credentials_ok_inv h
    subst hs1
    show store_credentials _ now L A R E = _
    rw [store_credentials_ok hL hA hR hE, upsert_self]

/-- A record whose `refresh_token` column is empty. -/
def credEmptyRT : CredentialRecord :=
  { location_id := "loc2", company_id := none, access_token := "tokC"
    refresh_token := "", expires_at := some 50 }

/-- A store holding exactly `credEmptyRT`. -/
def storeEmptyRT : Store := upsert emptyStore "loc2" credEmptyRT

/-- C6 (evaluation at the failing inputs): with no stored record — and likewise
with a stored record whose `refresh_token` is empty — `refresh_access_token`
raises `RuntimeError("Failed to retrieve credentials: No refresh token found
for location_id: ...")`, i.e. the internal runtime-failure kind, not the
`ValueError` its own docstring promises for missing credentials (the
`ValueError` raised inside the `try` block is swallowed by the blanket
`except Exception` and re-raised as `RuntimeError`); no network call is made. -/
theorem c6_missing_credentials_runtime_error :
    (refresh_access_token emptyStore 0 (.failure "net down") "loc1").result =
      .error (.runtimeError
        "Failed to retrieve credentials: No refresh token found for location_id: loc1") ∧
    (refresh_access_token emptyStore 0 (.failure "net down") "loc1").posts = [] ∧
    (refresh_access_token storeEmptyRT 0 (.failure "net down") "loc2").result =
      .error (.runtimeError
        "Failed to retrieve credentials: No refresh token found for location_id: loc2") ∧
    (refresh_access_token storeEmptyRT 0 (.failure "net down") "loc2").posts = [] :=
  ⟨rfl, rfl, rfl, rfl⟩

/-- C7: when the token endpoint's response lacks `access_token`,
`refresh_token`, or `expires_in`, `refresh_access_token` fails with the
incomplete-response error (`RuntimeError` carrying "Incomplete token response
from refresh request", re-wrapped by the blanket handler) and the store is
left untouched: a subsequent `get` returns the pre-refresh record unchanged. -/
theorem c7_incomplete_response_store_untouched (s : Store) (now : Int) (loc : String)
    (cred : CredentialRecord) (resp : TokenResponse)
    (hloc : loc ≠ "") (hs : s loc = some cred) (hrt : cred.refresh_token ≠ "")
    (hmiss : resp.access_token = none ∨ resp.refresh_token = none ∨
      resp.expires_in = none) :
    (refresh_access_token s now (.success resp) loc).result =
      .error (.runtimeError
        "Unexpected error during token refresh: Incomplete token response from refresh request") ∧
    (refresh_access_token s now (.success resp) loc).store = s ∧
    get_credentials (refresh_access_token s now (.success resp) loc).store loc =
      .ok (some cred) := by
  have hcond : (truthyS resp.access_token && truthyS resp.refresh_token
      && truthyI resp.expires_in) = false := by
    rcases hmiss with h | h | h <;> simp [truthyS, truthyI, h]
  have hout : refresh_access_token s now (.success resp) loc =
      { result := .error (.runtimeError
          "Unexpected error during token refresh: Incomplete token response from refresh request")
        store := s, posts := [cred.refresh_token] } := by
    unfold refresh_access_token
    rw [if_neg hloc]
    simp only [hs]
    rw [if_neg hrt]
    simp [hcond]
  rw [hout]
  refine ⟨rfl, rfl, ?_⟩
  unfold get_credentials
  rw [if_neg hloc]
  exact congrArg Except.ok hs

/-- The spec's incomplete mocked response: `refresh_token` is missing. -/
def respIncomplete : TokenResponse :=
  { access_token := some "tokB", refresh_token := none, expires_in := some 7200 }

/-- Witness for C7 at the spec's scenario: expired `cred1`, response missing
`refresh_token` — the error is the incomplete-response failure and `get`
still shows `cred1`. -/
theorem c7_incomplete_response_store_untouched_witness :
    (refresh_access_token storeOne 100 (.success respIncomplete) "loc1").result =
      .error (.runtimeError
        "Unexpected error during token refresh: Incomplete token response from refresh request") ∧
    (refresh_access_token storeOne 100 (.success respIncomplete) "loc1").store = storeOne ∧
    get_credentials (refresh_access_token storeOne 100 (.success respIncomplete) "loc1").store
      "loc1" = .ok (some cred1) :=
  c7_incomplete_response_store_untouched storeOne 100 "loc1" cred1 respIncomplete
    (by decide) rfl (by decide) (Or.inr (Or.inl rfl))

lemma reachable_company_id_none {s : Store} (h : Reachable s) :
    ∀ loc r, s loc = some r → r.company_id = none := by
  induction h with
  | init =>
    intro loc r hr
    simp [emptyStore] at hr
  | step _ hok ih =>
    intro loc r hr
    obtain ⟨_, _, _, _, hs2⟩ := store_credentials_ok_inv hok
    subst hs2
    unfold upsert at hr
    split at hr
    · cases hr
      rfl
    · exact ih loc r hr

/-- C10: in every store state reachable by the repository's write path
(`init_db` then successful `store_credentials` calls, the only writes in the
repo), every stored record has `company_id = NULL`, since the
`INSERT OR REPLACE` lists only the other four columns and so replaces any
previous row wholesale with a NULL `company_id`. -/
theorem c10_company_id_always_null (s : Store) (loc : String) (r : CredentialRecord)
    (h : Reachable s) (hr : s loc = some r) : r.company_id = none :=
  reachable_company_id_none h loc r hr

/-- Witness for C10: the one-step reachable store holding `cred1`. -/
theorem c10_company_id_always_null_witness : cred1.company_id = none :=
  c10_company_id_always_null storeOne "loc1" cred1
    (Reachable.step Reachable.init
      (show store_credentials emptyStore 0 "loc1" "tokA" "refA" 50 = .ok storeOne from rfl))
    rfl

